import Mathlib

/-
Shallow embedding of src/sqlite3/vfsmirror.c, an SQLite VFS shim that
mirrors writes on main-database / main-journal files into a replica
directory.  C strings are modelled as `List Char`; SQLite result codes as
`Int` (SQLITE_OK = 0); open flags as `Nat` bit masks.  Calls into the
underlying real VFS are modelled as oracles (result-code parameters or
functions), and each shim method additionally reports the ordered list of
underlying-handle slots it dispatched to, so that "never touches the
replica" is a provable statement.  Buffer writes of NUL terminators are
modelled by `List.take`, which yields the same string value.
-/

/-- SQLITE_OK result code (0). -/
def SQLITE_OK : Int := 0

/-- NAME_MAX fallback used by vfsmirror.c when limits.h does not provide it. -/
def NAME_MAX : Nat := 260

/-- SQLITE_OPEN_MAIN_DB open flag (0x100). -/
def SQLITE_OPEN_MAIN_DB : Nat := 0x100

/-- SQLITE_OPEN_MAIN_JOURNAL open flag (0x800). -/
def SQLITE_OPEN_MAIN_JOURNAL : Nat := 0x800

/-- The macro `RETURN_CODE(RC1, RC2)` of vfsmirror.c line 210:
`(RC1 == RC2 ? RC1 : RC1 == SQLITE_OK ? RC2 : RC1)`. -/
def RETURN_CODE (rc1 rc2 : Int) : Int :=
  if rc1 = rc2 then rc1 else if rc1 = SQLITE_OK then rc2 else rc1

/-- The set of characters `fileTail` (and the trim loop) treat as path
separators: forward slash and backslash. -/
def isPathSeparator (c : Char) : Bool := c = '/' || c = '\\'

/-- The loop of `fileTail` (vfsmirror.c lines 217-223):
`while (i > 0 && z[i-1] != '/' && z[i-1] != '\\') { i--; }`.
The recursion parameter is the C variable `i`; the arm `i+1` reads
`z[(i+1)-1] = z[i]` and either decrements or stops. Returns the final `i`. -/
def fileTailLoop (z : List Char) : Nat → Nat
  | 0 => 0
  | i + 1 =>
      let ch := z.getD i (Char.ofNat 0)
      if ch ≠ '/' ∧ ch ≠ '\\' then fileTailLoop z i else i + 1

/-- The offset (in C, the pointer `&z[i]` relative to `z`) returned by
`fileTail`: `i = strlen(z) - 1` as a signed int, so the empty string yields
the offset `-1`, and the loop is skipped because `i > 0` fails. -/
def fileTailOffset (z : List Char) : Int :=
  if z.length = 0 then -1 else (fileTailLoop z (z.length - 1) : Int)

/-- `fileTail` of vfsmirror.c as a string value: the suffix of `z` starting
at the loop's final index.  For the empty string the C function returns the
out-of-bounds pointer `&z[-1]` (see `fileTailOffset`); the string value is
left as `[]` here and theorems about values carry a nonemptiness premise. -/
def fileTail (z : List Char) : List Char :=
  if z.length = 0 then [] else z.drop (fileTailLoop z (z.length - 1))

/-- `fileTail` with the C null-pointer case: `if (z == 0) return 0;`.
`none` models the null pointer; a `some` result is the returned offset. -/
def fileTailC : Option (List Char) → Option Int
  | none => none
  | some z => some (fileTailOffset z)

/-- Instrumented version of `fileTailLoop` recording every index of `z`
read by the loop condition (the C reads `z[i-1]` whenever `i > 0`). -/
def fileTailReads (z : List Char) : Nat → List Nat
  | 0 => []
  | i + 1 =>
      let ch := z.getD i (Char.ofNat 0)
      if ch ≠ '/' ∧ ch ≠ '\\' then i :: fileTailReads z i else [i]

/-- All indices of the input buffer read by `fileTail` on input `z`. -/
def fileTailAccesses (z : List Char) : List Nat :=
  if z.length = 0 then [] else fileTailReads z (z.length - 1)

/-- `vfsmirrorReplicaPath` (vfsmirror.c lines 663-669):
`strncpy(dest, zSlaveDir, size); strncat(dest, "\\", size);
strncat(dest, fileTail(sourcePath), size);` with `size = NAME_MAX`.
`strncpy`/`strncat` copy at most `size` characters, modelled by
`List.take`; `zSlaveDir` is the configured replica directory. -/
def vfsmirrorReplicaPath (zSlaveDir sourcePath : List Char) : List Char :=
  List.take NAME_MAX zSlaveDir ++ List.take NAME_MAX ['\\'] ++
    List.take NAME_MAX (fileTail sourcePath)

/-- An underlying (real VFS) file handle, abstracted to the result code the
real VFS returns for each method the shim can invoke on it. -/
structure UFile where
  closeRC : Int
  readRC : Int
  writeRC : Int
  truncateRC : Int
  syncRC : Int
  fileSizeRC : Int
  lockRC : Int
  unlockRC : Int
  checkReservedLockRC : Int
  fileControlRC : Int
  sectorSizeRC : Int
  deviceCharRC : Int
  shmLockRC : Int
  shmMapRC : Int
  shmUnmapRC : Int
deriving DecidableEq, Repr

/-- The two underlying-handle slots of a `vfsmirror_file`:
`pReal[0]` (primary) and `pReal[1]` (replica). -/
inductive Slot where
  | primary : Slot
  | replica : Slot
deriving DecidableEq, Repr

/-- A mirrored file handle (`vfsmirror_file`): `real0` models `pReal[0]`
(always populated), `real1` models `pReal[1]` (`none` models the null
pointer checked by `if (p->pReal[1])`). -/
structure MFile where
  real0 : UFile
  real1 : Option UFile
deriving DecidableEq, Repr

/-- `vfsmirrorRead` (lines 347-364): dispatches to `pReal[0]` only (the
replica branch is commented out in the source). Returns the result code and
the ordered list of slots invoked. -/
def vfsmirrorRead (m : MFile) : Int × List Slot :=
  (m.real0.readRC, [Slot.primary])

/-- `vfsmirrorWrite` (lines 369-387): primary first, then replica if
present; returns `RETURN_CODE(rc, rc1)` with `rc1` initialised to
SQLITE_OK. -/
def vfsmirrorWrite (m : MFile) : Int × List Slot :=
  let rc := m.real0.writeRC
  match m.real1 with
  | some r => (RETURN_CODE rc r.writeRC, [Slot.primary, Slot.replica])
  | none => (RETURN_CODE rc SQLITE_OK, [Slot.primary])

/-- `vfsmirrorTruncate` (lines 392-405): dual dispatch like write. -/
def vfsmirrorTruncate (m : MFile) : Int × List Slot :=
  let rc := m.real0.truncateRC
  match m.real1 with
  | some r => (RETURN_CODE rc r.truncateRC, [Slot.primary, Slot.replica])
  | none => (RETURN_CODE rc SQLITE_OK, [Slot.primary])

/-- `vfsmirrorSync` (lines 410-434): dual dispatch like write. -/
def vfsmirrorSync (m : MFile) : Int × List Slot :=
  let rc := m.real0.syncRC
  match m.real1 with
  | some r => (RETURN_CODE rc r.syncRC, [Slot.primary, Slot.replica])
  | none => (RETURN_CODE rc SQLITE_OK, [Slot.primary])

/-- `vfsmirrorFileSize` (lines 439-450): primary only (replica branch is
commented out in the source). -/
def vfsmirrorFileSize (m : MFile) : Int × List Slot :=
  (m.real0.fileSizeRC, [Slot.primary])

/-- `vfsmirrorLock` (lines 470-479): primary only. -/
def vfsmirrorLock (m : MFile) : Int × List Slot :=
  (m.real0.lockRC, [Slot.primary])

/-- `vfsmirrorUnlock` (lines 484-493): primary only. -/
def vfsmirrorUnlock (m : MFile) : Int × List Slot :=
  (m.real0.unlockRC, [Slot.primary])

/-- `vfsmirrorCheckReservedLock` (lines 498-508): primary only. -/
def vfsmirrorCheckReservedLock (m : MFile) : Int × List Slot :=
  (m.real0.checkReservedLockRC, [Slot.primary])

/-- `vfsmirrorFileControl` (lines 513-575): dual dispatch; the VFSNAME /
PRAGMA string side effects do not change the result code or dispatch. -/
def vfsmirrorFileControl (m : MFile) : Int × List Slot :=
  let rc := m.real0.fileControlRC
  match m.real1 with
  | some r => (RETURN_CODE rc r.fileControlRC, [Slot.primary, Slot.replica])
  | none => (RETURN_CODE rc SQLITE_OK, [Slot.primary])

/-- `vfsmirrorSectorSize` (lines 580-588): primary only. -/
def vfsmirrorSectorSize (m : MFile) : Int × List Slot :=
  (m.real0.sectorSizeRC, [Slot.primary])

/-- `vfsmirrorDeviceCharacteristics` (lines 593-602): primary only. -/
def vfsmirrorDeviceCharacteristics (m : MFile) : Int × List Slot :=
  (m.real0.deviceCharRC, [Slot.primary])

/-- `vfsmirrorShmLock` (lines 607-629): primary only. -/
def vfsmirrorShmLock (m : MFile) : Int × List Slot :=
  (m.real0.shmLockRC, [Slot.primary])

/-- `vfsmirrorShmMap` (lines 630-645): primary only. -/
def vfsmirrorShmMap (m : MFile) : Int × List Slot :=
  (m.real0.shmMapRC, [Slot.primary])

/-- `vfsmirrorShmBarrier` (lines 646-651): returns nothing; dispatches to
the primary only. -/
def vfsmirrorShmBarrier (_ : MFile) : List Slot :=
  [Slot.primary]

/-- `vfsmirrorShmUnmap` (lines 652-661): primary only. -/
def vfsmirrorShmUnmap (m : MFile) : Int × List Slot :=
  (m.real0.shmUnmapRC, [Slot.primary])

/-- Result of `vfsmirrorClose`: returned code, slots invoked in order, and
whether the handle's allocated method table was freed and its reference
(`p->base.pMethods`) cleared. -/
structure CloseResult where
  rc : Int
  calls : List Slot
  methodsFreed : Bool
deriving DecidableEq, Repr

/-- `vfsmirrorClose` (lines 326-342): closes `pReal[0]` giving `rc`, then
`pReal[1]` if present giving `rc1` (initialised SQLITE_OK); frees and
clears the method table iff `rc == SQLITE_OK`; returns
`RETURN_CODE(rc, rc1)`. -/
def vfsmirrorClose (m : MFile) : CloseResult :=
  let rc := m.real0.closeRC
  match m.real1 with
  | some r =>
      { rc := RETURN_CODE rc r.closeRC
        calls := [Slot.primary, Slot.replica]
        methodsFreed := decide (rc = SQLITE_OK) }
  | none =>
      { rc := RETURN_CODE rc SQLITE_OK
        calls := [Slot.primary]
        methodsFreed := decide (rc = SQLITE_OK) }

/-- `vfsmirrorDelete` (lines 749-762): deletes `zPath` through the root
VFS, computes the replica path, unconditionally deletes it too, and returns
`RETURN_CODE(rc, rc1)`.  `xDelete` is the root VFS delete oracle (path and
`dirSync` to result code); the second component lists the `(path, dirSync)`
pairs passed to the root VFS in order. -/
def vfsmirrorDelete (zSlaveDir : List Char) (xDelete : List Char → Int → Int)
    (zPath : List Char) (dirSync : Int) : Int × List (List Char × Int) :=
  let rc := xDelete zPath dirSync
  let tmpPath := vfsmirrorReplicaPath zSlaveDir zPath
  let rc1 := xDelete tmpPath dirSync
  (RETURN_CODE rc rc1, [(zPath, dirSync), (tmpPath, dirSync)])

/-- The replica-open retry loop of `vfsmirrorOpen` (lines 721-725):
`retry = 10; while (retry > 0 && (rc1 = xOpen(...)) != SQLITE_OK)
\x7b sqlite3_sleep(5); retry--; \x7d`.
`f` gives the root VFS open result for the n-th attempt (0-based), `fuel`
is the C variable `retry`, `idx` counts attempts made so far, `rc1` is the
current value of the C variable `rc1`.  Returns the final `rc1` and the
total number of attempts performed. -/
def retryLoop (f : Nat → Int) : Nat → Nat → Int → Int × Nat
  | 0, idx, rc1 => (rc1, idx)
  | fuel + 1, idx, rc1 =>
      let rc := f idx
      if rc = SQLITE_OK then (rc, idx + 1)
      else retryLoop f fuel (idx + 1) rc

/-- Observable outcome of `vfsmirrorOpen`: the returned code, whether
`p->pReal[1]` is non-null afterwards, the number of replica-open attempts,
and the offset of `p->zFName` into `zName` (`none` models the `"<temp>"`
sentinel used when `zName` is null). -/
structure OpenResult where
  rc : Int
  replicaSet : Bool
  replicaAttempts : Nat
  zFNameOff : Option Int
deriving DecidableEq, Repr

/-- `vfsmirrorOpen` (lines 673-742), abstracted over the root VFS:
`primaryRC` is the result of the primary `xOpen`; `replicaOpen` gives the
result of the n-th replica `xOpen` attempt.  The replica branch runs iff
`zName && rc == SQLITE_OK && (flags & (SQLITE_OPEN_MAIN_DB |
SQLITE_OPEN_MAIN_JOURNAL))`; it sets `pReal[1]` before the retry loop and
never clears it.  The function returns `RETURN_CODE(rc, rc1)` with `rc1`
initialised to SQLITE_OK. -/
def vfsmirrorOpen (zName : Option (List Char)) (flags : Nat)
    (primaryRC : Int) (replicaOpen : Nat → Int) : OpenResult :=
  if zName.isSome = true ∧ primaryRC = SQLITE_OK ∧
      flags &&& (SQLITE_OPEN_MAIN_DB ||| SQLITE_OPEN_MAIN_JOURNAL) ≠ 0 then
    { rc := RETURN_CODE primaryRC (retryLoop replicaOpen 10 0 SQLITE_OK).1
      replicaSet := true
      replicaAttempts := (retryLoop replicaOpen 10 0 SQLITE_OK).2
      zFNameOff := zName.map fileTailOffset }
  else
    { rc := RETURN_CODE primaryRC SQLITE_OK
      replicaSet := false
      replicaAttempts := 0
      zFNameOff := zName.map fileTailOffset }

/-- The trailing-separator trim loop of `set_mirror_directory`
(lines 1017-1020):
`while (zSlaveDir[converted-1] == '/' ||
        zSlaveDir[converted-1] == '\\' && converted > 0)
 \x7b converted--; zSlaveDir[converted] = 0; \x7d`.
`&&` binds tighter than `||`, so the `converted > 0` guard protects only
the backslash disjunct, and the read of `zSlaveDir[converted-1]` happens
first in every iteration.  The recursion parameter is `converted`; the arm
`0` is the iteration whose condition reads `zSlaveDir[-1]` (with size_t
arithmetic, index `SIZE_MAX`), an out-of-bounds read, returned as `none`.
The NUL stores hit only indices at or above the current `converted` and are
never re-read, so the buffer itself need not be threaded through; a `some`
result is the final value of `converted`. -/
def trimLoop (buf : List Char) : Nat → Option Nat
  | 0 => none
  | c + 1 =>
      let ch := buf.getD c (Char.ofNat 0)
      if ch = '/' ∨ (ch = '\\' ∧ 0 < c + 1) then trimLoop buf c
      else some (c + 1)

/-- The process-wide mutable state of vfsmirror.c: the `zSlaveDir` buffer
(as its string value) and the `registered` flag. -/
structure MirrorState where
  zSlaveDir : List Char
  registered : Bool
deriving DecidableEq, Repr

/-- Result of one `set_mirror_directory` call: the returned int (0 or 1),
the state after the call, and whether `vfsmirror_register` was invoked. -/
structure SetMirrorResult where
  ret : Int
  state : MirrorState
  registerCalled : Bool
deriving DecidableEq, Repr

/-- `set_mirror_directory` (lines 1007-1027), abstracted over the
`dirExists` filesystem oracle.  Rejects (returns 0) if already registered
or if `strlen(slave_dir) >= NAME_MAX`; otherwise copies the path into
`zSlaveDir` (the snprintf is modelled as a verbatim copy, faithful for
paths without percent characters), runs the trim loop, rejects if the
trimmed length is below 2 or the directory does not exist, and otherwise
sets `registered`, calls `vfsmirror_register`, and returns 1.  A `none`
result marks the run in which the trim loop performed its out-of-bounds
read (modelled undefined behavior). -/
def set_mirror_directory (dirExists : List Char → Bool) (st : MirrorState)
    (slave_dir : List Char) : Option SetMirrorResult :=
  if st.registered then some ⟨0, st, false⟩
  else if NAME_MAX ≤ slave_dir.length then some ⟨0, st, false⟩
  else
    match trimLoop slave_dir slave_dir.length with
    | none => none
    | some c =>
        if c < 2 ∨ dirExists (slave_dir.take c) = false then
          some ⟨0, { st with zSlaveDir := slave_dir.take c }, false⟩
        else
          some ⟨1, ⟨slave_dir.take c, true⟩, true⟩

/-- A sample underlying handle whose every method returns `n`. -/
def sampleUFile (n : Int) : UFile :=
  ⟨n, n, n, n, n, n, n, n, n, n, n, n, n, n, n⟩

/-- One-step unfolding of `retryLoop` at zero fuel. -/
theorem retryLoop_zero (f : Nat → Int) (idx : Nat) (rc1 : Int) :
    retryLoop f 0 idx rc1 = (rc1, idx) := rfl

/-- One-step unfolding of `retryLoop` at positive fuel. -/
theorem retryLoop_succ (f : Nat → Int) (fuel idx : Nat) (rc1 : Int) :
    retryLoop f (fuel + 1) idx rc1 =
      if f idx = SQLITE_OK then (f idx, idx + 1)
      else retryLoop f fuel (idx + 1) (f idx) := rfl

/-- The retry loop performs at most `fuel` further attempts. -/
theorem retryLoop_attempts_le (f : Nat → Int) :
    ∀ (fuel idx : Nat) (rc1 : Int), (retryLoop f fuel idx rc1).2 ≤ idx + fuel := by
  intro fuel
  induction fuel with
  | zero => intro idx rc1; simp [retryLoop_zero]
  | succ n ih =>
      intro idx rc1
      rw [retryLoop_succ]
      by_cases h0 : f idx = SQLITE_OK
      · rw [if_pos h0]
        show idx + 1 ≤ idx + (n + 1)
        omega
      · rw [if_neg h0]
        have := ih (idx + 1) (f idx)
        omega

/-- The attempt counter of the retry loop never decreases. -/
theorem retryLoop_idx_le (f : Nat → Int) :
    ∀ (fuel idx : Nat) (rc1 : Int), idx ≤ (retryLoop f fuel idx rc1).2 := by
  intro fuel
  induction fuel with
  | zero => intro idx rc1; simp [retryLoop_zero]
  | succ n ih =>
      intro idx rc1
      rw [retryLoop_succ]
      by_cases h0 : f idx = SQLITE_OK
      · rw [if_pos h0]
        show idx ≤ idx + 1
        omega
      · rw [if_neg h0]
        have := ih (idx + 1) (f idx)
        omega

/-- With positive fuel, the retry loop performs at least one attempt. -/
theorem retryLoop_zero_lt (f : Nat → Int) (fuel idx : Nat) (rc1 : Int)
    (hf : 0 < fuel) : idx < (retryLoop f fuel idx rc1).2 := by
  cases fuel with
  | zero => omega
  | succ n =>
      rw [retryLoop_succ]
      by_cases h0 : f idx = SQLITE_OK
      · rw [if_pos h0]
        show idx < idx + 1
        omega
      · rw [if_neg h0]
        have := retryLoop_idx_le f n (idx + 1) (f idx)
        omega

/-- If every attempt in range fails, the retry loop exhausts its fuel and
returns the last failing code. -/
theorem retryLoop_all_fail (f : Nat → Int) :
    ∀ (n idx : Nat) (rc1 : Int),
      (∀ i, idx ≤ i → i < idx + (n + 1) → f i ≠ SQLITE_OK) →
      retryLoop f (n + 1) idx rc1 = (f (idx + n), idx + n + 1) := by
  intro n
  induction n with
  | zero =>
      intro idx rc1 h
      have h0 : f idx ≠ SQLITE_OK := h idx (le_refl _) (by omega)
      rw [retryLoop_succ, if_neg h0, retryLoop_zero]
      simp
  | succ m ih =>
      intro idx rc1 h
      have h0 : f idx ≠ SQLITE_OK := h idx (le_refl _) (by omega)
      have hrec := ih (idx + 1) (f idx) (fun i hi1 hi2 => h i (by omega) (by omega))
      rw [retryLoop_succ, if_neg h0, hrec]
      have e1 : idx + 1 + m = idx + (m + 1) := by omega
      rw [e1]

/-- One-step unfolding of `fileTailLoop` at a positive index. -/
theorem fileTailLoop_succ (z : List Char) (i : Nat) :
    fileTailLoop z (i + 1) =
      if z.getD i (Char.ofNat 0) ≠ '/' ∧ z.getD i (Char.ofNat 0) ≠ '\\'
      then fileTailLoop z i else i + 1 := rfl

/-- The `fileTail` loop only moves the index downward. -/
theorem fileTailLoop_le (z : List Char) : ∀ i, fileTailLoop z i ≤ i := by
  intro i
  induction i with
  | zero => simp [fileTailLoop]
  | succ n ih =>
      rw [fileTailLoop_succ]
      split
      · omega
      · omega

/-- One-step unfolding of `fileTailReads` at a positive index. -/
theorem fileTailReads_succ (z : List Char) (i : Nat) :
    fileTailReads z (i + 1) =
      if z.getD i (Char.ofNat 0) ≠ '/' ∧ z.getD i (Char.ofNat 0) ≠ '\\'
      then i :: fileTailReads z i else [i] := rfl

/-- Every index read by the `fileTail` loop is below its starting index. -/
theorem fileTailReads_lt (z : List Char) :
    ∀ i, ∀ a ∈ fileTailReads z i, a < i := by
  intro i
  induction i with
  | zero => intro a ha; simp [fileTailReads] at ha
  | succ n ih =>
      intro a ha
      rw [fileTailReads_succ] at ha
      split at ha
      · rcases List.mem_cons.mp ha with rfl | h
        · omega
        · have := ih a h
          omega
      · rcases List.mem_singleton.mp ha with rfl
        omega

/-- The tail of a path is never longer than the path. -/
theorem fileTail_length_le (z : List Char) : (fileTail z).length ≤ z.length := by
  unfold fileTail
  split
  · simp
  · rw [List.length_drop]
    omega

/-- Claim C2: the reconciliation macro `RETURN_CODE` (combine) satisfies
combine(OK, OK) = OK; combine(E, OK) = E and combine(OK, E) = E for every
non-OK E; combine(E1, E2) = E1 for all non-OK E1, E2; combine(E, E) = E. -/
theorem C2_return_code_table (e e1 e2 : Int)
    (he : e ≠ SQLITE_OK) (he1 : e1 ≠ SQLITE_OK) (he2 : e2 ≠ SQLITE_OK) :
    RETURN_CODE SQLITE_OK SQLITE_OK = SQLITE_OK ∧
    RETURN_CODE e SQLITE_OK = e ∧
    RETURN_CODE SQLITE_OK e = e ∧
    RETURN_CODE e1 e2 = e1 ∧
    RETURN_CODE e e = e := by
  unfold RETURN_CODE
  refine ⟨by simp, ?_, ?_, ?_, by simp⟩
  · rw [if_neg he, if_neg he]
  · rw [if_neg (fun hx => he hx.symm), if_pos rfl]
  · by_cases h : e1 = e2
    · rw [if_pos h]
    · rw [if_neg h, if_neg he1]

/-- Witness for C2 at concrete codes 5, 7, 9. -/
theorem C2_return_code_table_witness :
    RETURN_CODE SQLITE_OK SQLITE_OK = SQLITE_OK ∧
    RETURN_CODE 5 SQLITE_OK = 5 ∧
    RETURN_CODE SQLITE_OK 5 = 5 ∧
    RETURN_CODE 7 9 = 7 ∧
    RETURN_CODE 5 5 = 5 :=
  C2_return_code_table 5 7 9 (by decide) (by decide) (by decide)

/-- Claim C4: for every primary path, the resolved replica path is the
configured replica directory, one path-separator character (a backslash,
which is in the separator set this shim itself recognises), and the base
name of the primary path; the result depends on the primary path only
through its base name, so the directory component is never reproduced. -/
theorem C4_replica_path (dir p : List Char) (hdir : dir.length < NAME_MAX)
    (hp : p.length < NAME_MAX) (hne : p ≠ []) :
    vfsmirrorReplicaPath dir p = dir ++ '\\' :: fileTail p ∧
    isPathSeparator '\\' = true ∧
    (∀ q, fileTail q = fileTail p →
      vfsmirrorReplicaPath dir q = vfsmirrorReplicaPath dir p) := by
  have hft : (fileTail p).length ≤ NAME_MAX :=
    le_trans (fileTail_length_le p) (le_of_lt hp)
  have hsep : List.take NAME_MAX ['\\'] = ['\\'] := by decide
  refine ⟨?_, rfl, fun q hq => ?_⟩
  · unfold vfsmirrorReplicaPath
    rw [List.take_of_length_le (le_of_lt hdir), List.take_of_length_le hft, hsep]
    simp
  · unfold vfsmirrorReplicaPath
    rw [hq]

/-- Witness for C4: with replica directory `D`, the primary path
`/a/b/test.db` resolves to `D\x5ctest.db`. -/
theorem C4_replica_path_witness :
    vfsmirrorReplicaPath "D".toList "/a/b/test.db".toList =
      "D".toList ++ '\\' :: fileTail "/a/b/test.db".toList ∧
    vfsmirrorReplicaPath "D".toList "/a/b/test.db".toList = "D\\test.db".toList := by
  have h := C4_replica_path "D".toList "/a/b/test.db".toList
    (by decide) (by decide) (by decide)
  exact ⟨h.1, by decide⟩

/-- Claim C5: read, fileSize, lock, unlock, checkReservedLock, sectorSize,
deviceCharacteristics and the shared-memory operations dispatch to the
primary slot only, for every handle; their outcome is independent of the
replica slot. -/
theorem C5_read_isolation (m mp : MFile) (h : m.real0 = mp.real0) :
    (vfsmirrorRead m).2 = [Slot.primary] ∧
    (vfsmirrorFileSize m).2 = [Slot.primary] ∧
    (vfsmirrorLock m).2 = [Slot.primary] ∧
    (vfsmirrorUnlock m).2 = [Slot.primary] ∧
    (vfsmirrorCheckReservedLock m).2 = [Slot.primary] ∧
    (vfsmirrorSectorSize m).2 = [Slot.primary] ∧
    (vfsmirrorDeviceCharacteristics m).2 = [Slot.primary] ∧
    (vfsmirrorShmLock m).2 = [Slot.primary] ∧
    (vfsmirrorShmMap m).2 = [Slot.primary] ∧
    vfsmirrorShmBarrier m = [Slot.primary] ∧
    (vfsmirrorShmUnmap m).2 = [Slot.primary] ∧
    vfsmirrorRead m = vfsmirrorRead mp ∧
    vfsmirrorFileSize m = vfsmirrorFileSize mp ∧
    vfsmirrorLock m = vfsmirrorLock mp ∧
    vfsmirrorUnlock m = vfsmirrorUnlock mp ∧
    vfsmirrorCheckReservedLock m = vfsmirrorCheckReservedLock mp ∧
    vfsmirrorSectorSize m = vfsmirrorSectorSize mp ∧
    vfsmirrorDeviceCharacteristics m = vfsmirrorDeviceCharacteristics mp ∧
    vfsmirrorShmLock m = vfsmirrorShmLock mp ∧
    vfsmirrorShmMap m = vfsmirrorShmMap mp ∧
    vfsmirrorShmBarrier m = vfsmirrorShmBarrier mp ∧
    vfsmirrorShmUnmap m = vfsmirrorShmUnmap mp := by
  simp [vfsmirrorRead, vfsmirrorFileSize, vfsmirrorLock, vfsmirrorUnlock,
    vfsmirrorCheckReservedLock, vfsmirrorSectorSize,
    vfsmirrorDeviceCharacteristics, vfsmirrorShmLock, vfsmirrorShmMap,
    vfsmirrorShmBarrier, vfsmirrorShmUnmap, h]

/-- Witness for C5 at a handle with a replica present versus the same
primary with no replica. -/
theorem C5_read_isolation_witness :
    (vfsmirrorRead ⟨sampleUFile 0, some (sampleUFile 7)⟩).2 = [Slot.primary] ∧
    (vfsmirrorFileSize ⟨sampleUFile 0, some (sampleUFile 7)⟩).2 = [Slot.primary] ∧
    (vfsmirrorLock ⟨sampleUFile 0, some (sampleUFile 7)⟩).2 = [Slot.primary] ∧
    (vfsmirrorUnlock ⟨sampleUFile 0, some (sampleUFile 7)⟩).2 = [Slot.primary] ∧
    (vfsmirrorCheckReservedLock ⟨sampleUFile 0, some (sampleUFile 7)⟩).2 = [Slot.primary] ∧
    (vfsmirrorSectorSize ⟨sampleUFile 0, some (sampleUFile 7)⟩).2 = [Slot.primary] ∧
    (vfsmirrorDeviceCharacteristics ⟨sampleUFile 0, some (sampleUFile 7)⟩).2 = [Slot.primary] ∧
    (vfsmirrorShmLock ⟨sampleUFile 0, some (sampleUFile 7)⟩).2 = [Slot.primary] ∧
    (vfsmirrorShmMap ⟨sampleUFile 0, some (sampleUFile 7)⟩).2 = [Slot.primary] ∧
    vfsmirrorShmBarrier ⟨sampleUFile 0, some (sampleUFile 7)⟩ = [Slot.primary] ∧
    (vfsmirrorShmUnmap ⟨sampleUFile 0, some (sampleUFile 7)⟩).2 = [Slot.primary] ∧
    vfsmirrorRead ⟨sampleUFile 0, some (sampleUFile 7)⟩ =
      vfsmirrorRead ⟨sampleUFile 0, none⟩ ∧
    vfsmirrorFileSize ⟨sampleUFile 0, some (sampleUFile 7)⟩ =
      vfsmirrorFileSize ⟨sampleUFile 0, none⟩ ∧
    vfsmirrorLock ⟨sampleUFile 0, some (sampleUFile 7)⟩ =
      vfsmirrorLock ⟨sampleUFile 0, none⟩ ∧
    vfsmirrorUnlock ⟨sampleUFile 0, some (sampleUFile 7)⟩ =
      vfsmirrorUnlock ⟨sampleUFile 0, none⟩ ∧
    vfsmirrorCheckReservedLock ⟨sampleUFile 0, some (sampleUFile 7)⟩ =
      vfsmirrorCheckReservedLock ⟨sampleUFile 0, none⟩ ∧
    vfsmirrorSectorSize ⟨sampleUFile 0, some (sampleUFile 7)⟩ =
      vfsmirrorSectorSize ⟨sampleUFile 0, none⟩ ∧
    vfsmirrorDeviceCharacteristics ⟨sampleUFile 0, some (sampleUFile 7)⟩ =
      vfsmirrorDeviceCharacteristics ⟨sampleUFile 0, none⟩ ∧
    vfsmirrorShmLock ⟨sampleUFile 0, some (sampleUFile 7)⟩ =
      vfsmirrorShmLock ⟨sampleUFile 0, none⟩ ∧
    vfsmirrorShmMap ⟨sampleUFile 0, some (sampleUFile 7)⟩ =
      vfsmirrorShmMap ⟨sampleUFile 0, none⟩ ∧
    vfsmirrorShmBarrier ⟨sampleUFile 0, some (sampleUFile 7)⟩ =
      vfsmirrorShmBarrier ⟨sampleUFile 0, none⟩ ∧
    vfsmirrorShmUnmap ⟨sampleUFile 0, some (sampleUFile 7)⟩ =
      vfsmirrorShmUnmap ⟨sampleUFile 0, none⟩ :=
  C5_read_isolation ⟨sampleUFile 0, some (sampleUFile 7)⟩ ⟨sampleUFile 0, none⟩ rfl

/-- Claim C6: close invokes the primary close first and the replica close
exactly when a replica is present, returns the two codes combined by
`RETURN_CODE`, and frees and clears the allocated method table exactly when
the primary close returned SQLITE_OK, regardless of the replica outcome. -/
theorem C6_close_semantics (m : MFile) :
    (vfsmirrorClose m).calls.head? = some Slot.primary ∧
    (vfsmirrorClose m).calls =
      Slot.primary :: (match m.real1 with | some _ => [Slot.replica] | none => []) ∧
    (vfsmirrorClose m).rc =
      RETURN_CODE m.real0.closeRC
        (match m.real1 with | some r => r.closeRC | none => SQLITE_OK) ∧
    ((vfsmirrorClose m).methodsFreed = true ↔ m.real0.closeRC = SQLITE_OK) := by
  cases hm : m.real1 <;>
    simp [vfsmirrorClose, hm]

/-- Witness for C6 at a handle whose primary close fails (code 9) and
whose replica close succeeds. -/
theorem C6_close_semantics_witness :
    (vfsmirrorClose ⟨sampleUFile 9, some (sampleUFile 0)⟩).calls.head? =
      some Slot.primary ∧
    (vfsmirrorClose ⟨sampleUFile 9, some (sampleUFile 0)⟩).calls =
      Slot.primary ::
        (match (⟨sampleUFile 9, some (sampleUFile 0)⟩ : MFile).real1 with
          | some _ => [Slot.replica] | none => []) ∧
    (vfsmirrorClose ⟨sampleUFile 9, some (sampleUFile 0)⟩).rc =
      RETURN_CODE (sampleUFile 9).closeRC
        (match (⟨sampleUFile 9, some (sampleUFile 0)⟩ : MFile).real1 with
          | some r => r.closeRC | none => SQLITE_OK) ∧
    ((vfsmirrorClose ⟨sampleUFile 9, some (sampleUFile 0)⟩).methodsFreed = true ↔
      (sampleUFile 9).closeRC = SQLITE_OK) :=
  C6_close_semantics ⟨sampleUFile 9, some (sampleUFile 0)⟩

/-- Claim C7: delete always deletes the primary path and then the computed
replica path, with the same dirSync argument, whatever the path is, and
returns the two statuses combined by `RETURN_CODE`. -/
theorem C7_delete_dual (zSlaveDir zPath : List Char)
    (xDelete : List Char → Int → Int) (dirSync : Int) :
    (vfsmirrorDelete zSlaveDir xDelete zPath dirSync).2 =
      [(zPath, dirSync), (vfsmirrorReplicaPath zSlaveDir zPath, dirSync)] ∧
    (vfsmirrorDelete zSlaveDir xDelete zPath dirSync).1 =
      RETURN_CODE (xDelete zPath dirSync)
        (xDelete (vfsmirrorReplicaPath zSlaveDir zPath) dirSync) :=
  ⟨rfl, rfl⟩

/-- Claim C1 (amended): the replica open is attempted at most 10 times; but
when the primary open succeeds and all 10 replica attempts fail, `open`
returns the failing replica code produced by `RETURN_CODE` (not success),
and the handle's replica slot is left set (non-null), not absent. -/
theorem C1_open_retry_exhaustion (zName : List Char) (flags : Nat)
    (f : Nat → Int)
    (hflags : flags &&& (SQLITE_OPEN_MAIN_DB ||| SQLITE_OPEN_MAIN_JOURNAL) ≠ 0)
    (hfail : ∀ i, i < 10 → f i ≠ SQLITE_OK) :
    (∀ (nm : Option (List Char)) (fl : Nat) (pr : Int) (g : Nat → Int),
      (vfsmirrorOpen nm fl pr g).replicaAttempts ≤ 10) ∧
    (vfsmirrorOpen (some zName) flags SQLITE_OK f).replicaAttempts = 10 ∧
    (vfsmirrorOpen (some zName) flags SQLITE_OK f).rc = f 9 ∧
    f 9 ≠ SQLITE_OK ∧
    (vfsmirrorOpen (some zName) flags SQLITE_OK f).replicaSet = true := by
  have h9 : f 9 ≠ SQLITE_OK := hfail 9 (by omega)
  have hcond : (some zName).isSome = true ∧ (SQLITE_OK : Int) = SQLITE_OK ∧
      flags &&& (SQLITE_OPEN_MAIN_DB ||| SQLITE_OPEN_MAIN_JOURNAL) ≠ 0 :=
    ⟨rfl, rfl, hflags⟩
  have hloop : retryLoop f 10 0 SQLITE_OK = (f 9, 10) := by
    have h := retryLoop_all_fail f 9 0 SQLITE_OK
      (fun i _ hi => hfail i (by omega))
    simpa using h
  refine ⟨?_, ?_, ?_, h9, ?_⟩
  · intro nm fl pr g
    unfold vfsmirrorOpen
    by_cases hc : (nm.isSome = true ∧ pr = SQLITE_OK ∧
        fl &&& (SQLITE_OPEN_MAIN_DB ||| SQLITE_OPEN_MAIN_JOURNAL) ≠ 0)
    · rw [if_pos hc]
      show (retryLoop g 10 0 SQLITE_OK).2 ≤ 10
      have := retryLoop_attempts_le g 10 0 SQLITE_OK
      omega
    · rw [if_neg hc]
      show (0 : Nat) ≤ 10
      omega
  · unfold vfsmirrorOpen
    rw [if_pos hcond, hloop]
  · unfold vfsmirrorOpen
    rw [if_pos hcond, hloop]
    show RETURN_CODE SQLITE_OK (f 9) = f 9
    unfold RETURN_CODE
    rw [if_neg (fun hx => h9 hx.symm), if_pos rfl]
  · unfold vfsmirrorOpen
    rw [if_pos hcond]

/-- Counterexample to claim C1 as stated: primary open succeeds, every
replica attempt returns SQLITE_IOERR (10); `open` returns 10, not success,
and the replica slot is set, not absent. -/
theorem C1_open_counterexample :
    (vfsmirrorOpen (some ['x']) SQLITE_OPEN_MAIN_DB SQLITE_OK
      (fun _ => 10)).rc ≠ SQLITE_OK ∧
    (vfsmirrorOpen (some ['x']) SQLITE_OPEN_MAIN_DB SQLITE_OK
      (fun _ => 10)).replicaSet = true := by
  decide

/-- Witness for C1 at the same concrete run. -/
theorem C1_open_retry_exhaustion_witness :
    (∀ (nm : Option (List Char)) (fl : Nat) (pr : Int) (g : Nat → Int),
      (vfsmirrorOpen nm fl pr g).replicaAttempts ≤ 10) ∧
    (vfsmirrorOpen (some ['x']) SQLITE_OPEN_MAIN_DB SQLITE_OK
      (fun _ => 10)).replicaAttempts = 10 ∧
    (vfsmirrorOpen (some ['x']) SQLITE_OPEN_MAIN_DB SQLITE_OK
      (fun _ => 10)).rc = (fun _ => (10 : Int)) 9 ∧
    (fun _ => (10 : Int)) 9 ≠ SQLITE_OK ∧
    (vfsmirrorOpen (some ['x']) SQLITE_OPEN_MAIN_DB SQLITE_OK
      (fun _ => 10)).replicaSet = true :=
  C1_open_retry_exhaustion ['x'] SQLITE_OPEN_MAIN_DB (fun _ => 10)
    (by decide) (fun _ _ => (by decide : (10 : Int) ≠ SQLITE_OK))

/-- Claim C3 (amended): a replica open is attempted — equivalently, the
replica slot is set — exactly when a non-null name was supplied, the
primary open succeeded, and the open flags contain the main-database or
main-journal bit; in particular every open of another kind performs no
replica attempt and leaves the slot empty. -/
theorem C3_mirror_eligibility (zName : Option (List Char)) (flags : Nat)
    (pr : Int) (f : Nat → Int) :
    (0 < (vfsmirrorOpen zName flags pr f).replicaAttempts ↔
      (zName.isSome = true ∧ pr = SQLITE_OK ∧
        flags &&& (SQLITE_OPEN_MAIN_DB ||| SQLITE_OPEN_MAIN_JOURNAL) ≠ 0)) ∧
    ((vfsmirrorOpen zName flags pr f).replicaSet = true ↔
      (zName.isSome = true ∧ pr = SQLITE_OK ∧
        flags &&& (SQLITE_OPEN_MAIN_DB ||| SQLITE_OPEN_MAIN_JOURNAL) ≠ 0)) := by
  unfold vfsmirrorOpen
  by_cases h : (zName.isSome = true ∧ pr = SQLITE_OK ∧
      flags &&& (SQLITE_OPEN_MAIN_DB ||| SQLITE_OPEN_MAIN_JOURNAL) ≠ 0)
  · rw [if_pos h]
    have hpos : 0 < (retryLoop f 10 0 SQLITE_OK).2 :=
      retryLoop_zero_lt f 10 0 SQLITE_OK (by omega)
    exact ⟨⟨fun _ => h, fun _ => hpos⟩, ⟨fun _ => h, fun _ => rfl⟩⟩
  · rw [if_neg h]
    constructor
    · constructor
      · intro h0
        exact absurd h0 (by simp)
      · intro hc
        exact absurd hc h
    · constructor
      · intro hb
        exact absurd hb (by simp)
      · intro hc
        exact absurd hc h

/-- Counterexample to claim C3 as stated: the open flags indicate a main
database, yet because the primary open failed (code 1) no replica open is
attempted and the replica slot stays empty. -/
theorem C3_eligibility_counterexample :
    SQLITE_OPEN_MAIN_DB &&& (SQLITE_OPEN_MAIN_DB ||| SQLITE_OPEN_MAIN_JOURNAL) ≠ 0 ∧
    (vfsmirrorOpen (some ['x']) SQLITE_OPEN_MAIN_DB 1
      (fun _ => SQLITE_OK)).replicaAttempts = 0 ∧
    (vfsmirrorOpen (some ['x']) SQLITE_OPEN_MAIN_DB 1
      (fun _ => SQLITE_OK)).replicaSet = false := by
  decide

/-- Witness for C3 at a concrete eligible open. -/
theorem C3_mirror_eligibility_witness :
    0 < (vfsmirrorOpen (some ['x']) SQLITE_OPEN_MAIN_DB SQLITE_OK
      (fun _ => SQLITE_OK)).replicaAttempts :=
  (C3_mirror_eligibility (some ['x']) SQLITE_OPEN_MAIN_DB SQLITE_OK
    (fun _ => SQLITE_OK)).1.mpr ⟨rfl, rfl, by decide⟩

/-- Claim C8: for the degenerate configured paths "" and "/", the
trailing-separator trim loop of `set_mirror_directory` evaluates
`zSlaveDir[converted - 1]` with `converted = 0`, an out-of-bounds read of
the path buffer (index -1 in pointer terms), because the `converted > 0`
check guards only the backslash disjunct; the run is modelled as the
undefined result `none`. -/
theorem C8_trim_oob :
    set_mirror_directory (fun _ => true) ⟨[], false⟩ [] = none ∧
    set_mirror_directory (fun _ => true) ⟨[], false⟩ ['/'] = none := by
  constructor
  · rfl
  · rfl

/-- Claim C9: whenever a `set_mirror_directory` call is accepted
(returns 1), the resulting state has `registered` set; and on any state
with `registered` set, every call returns 0, leaves the state (the stored
replica directory and the flag) unchanged, and performs no shim
registration. -/
theorem C9_one_shot (dirExists : List Char → Bool) (st : MirrorState)
    (p : List Char) (r : SetMirrorResult)
    (h : set_mirror_directory dirExists st p = some r) (hr : r.ret = 1) :
    r.state.registered = true ∧
    ∀ (d2 : List Char → Bool) (st2 : MirrorState) (q : List Char),
      st2.registered = true →
      set_mirror_directory d2 st2 q = some ⟨0, st2, false⟩ := by
  have hreg : ∀ (d2 : List Char → Bool) (st2 : MirrorState) (q : List Char),
      st2.registered = true →
      set_mirror_directory d2 st2 q = some ⟨0, st2, false⟩ := by
    intro d2 st2 q h2
    unfold set_mirror_directory
    rw [if_pos h2]
  refine ⟨?_, hreg⟩
  unfold set_mirror_directory at h
  split at h
  · cases h
    have hr2 : (0 : Int) = 1 := hr
    exact absurd hr2 (by decide)
  · split at h
    · cases h
      have hr2 : (0 : Int) = 1 := hr
      exact absurd hr2 (by decide)
    · split at h
      · exact Option.noConfusion h
      · split at h
        · cases h
          have hr2 : (0 : Int) = 1 := hr
          exact absurd hr2 (by decide)
        · cases h
          rfl

/-- Witness for C9: a first accepted call on an existing two-character
directory, then a rejected, state-preserving second call. -/
theorem C9_one_shot_witness :
    ((⟨1, ⟨['a', 'b'], true⟩, true⟩ : SetMirrorResult)).state.registered = true ∧
    set_mirror_directory (fun _ => true) ⟨['a', 'b'], true⟩ ['c'] =
      some ⟨0, ⟨['a', 'b'], true⟩, false⟩ := by
  have h := C9_one_shot (fun _ => true) ⟨[], false⟩ ['a', 'b']
    ⟨1, ⟨['a', 'b'], true⟩, true⟩ (by decide) rfl
  exact ⟨h.1, h.2 (fun _ => true) ⟨['a', 'b'], true⟩ ['c'] h.1⟩

/-- Claim C10 (amended): every buffer access the `fileTail` loop makes is
in bounds for every input, and for every non-empty input the returned
pointer offset lies in [0, length); but for the empty string the returned
pointer offset is -1, one before the buffer, not non-negative; a null
input yields a null result. -/
theorem C10_fileTail_inbounds (z : List Char) (hz : z ≠ []) :
    (∀ w : List Char, ∀ a ∈ fileTailAccesses w, a < w.length) ∧
    0 ≤ fileTailOffset z ∧ (fileTailOffset z : Int) < z.length ∧
    fileTailOffset ([] : List Char) = -1 ∧ fileTailC none = none := by
  have hlen : z.length ≠ 0 := by
    simpa [List.length_eq_zero] using hz
  refine ⟨?_, ?_, ?_, rfl, rfl⟩
  · intro w a ha
    unfold fileTailAccesses at ha
    split at ha
    · simp at ha
    · have := fileTailReads_lt w (w.length - 1) a ha
      omega
  · unfold fileTailOffset
    rw [if_neg hlen]
    exact Int.ofNat_nonneg _
  · unfold fileTailOffset
    rw [if_neg hlen]
    have h1 := fileTailLoop_le z (z.length - 1)
    omega

/-- Counterexample to claim C10 as stated: on the empty string `fileTail`
returns the offset -1 (the pointer `&z[-1]`), which is negative, and this
input is reachable from `vfsmirrorOpen` when an empty file name is
supplied. -/
theorem C10_fileTail_counterexample :
    fileTailOffset ([] : List Char) < 0 ∧
    fileTailC (some []) = some (-1) ∧
    (vfsmirrorOpen (some []) SQLITE_OPEN_MAIN_DB SQLITE_OK
      (fun _ => SQLITE_OK)).zFNameOff = some (-1) := by
  decide

/-- Witness for C10 at the one-character input. -/
theorem C10_fileTail_inbounds_witness :
    0 ≤ fileTailOffset ['a'] ∧
    (fileTailOffset ['a'] : Int) < (['a'] : List Char).length := by
  have h := C10_fileTail_inbounds ['a'] (by decide)
  exact ⟨h.2.1, h.2.2.1⟩
